import Mathlib

/-!
Verification of the birthday-animation core (`main.js`): procedural tree
generation, growth reveal, the image-to-particle sampler, the particle
field, and the scene sequencer. Numbers are modelled as exact rationals;
`Math.random()` is modelled as an explicit stream `σ : ℕ → ℚ` consumed by
an index that is threaded through every computation, exactly in the order
the source draws random values. `Math.cos`, `Math.sin` are passed in as
opaque-to-the-proof function parameters `c s : ℚ → ℚ` (the geometry never
matters for the claims), and `Math.PI` is the exact rational value of the
IEEE-754 double the engine uses.
-/

namespace Birthday

/-- JS `clamp(v, a, b) = Math.max(a, Math.min(b, v))` (main.js line 49). -/
def clamp (v a b : ℚ) : ℚ := max a (min b v)

/-- JS `lerp(a, b, t) = a + (b - a) * t` (main.js line 50). -/
def lerp (a b t : ℚ) : ℚ := a + (b - a) * t

/-- JS `smoothstep(t) = t * t * (3 - 2 * t)` (main.js line 51). -/
def smoothstep (t : ℚ) : ℚ := t * t * (3 - 2 * t)

/-- JS `rand(a, b) = a + Math.random() * (b - a)` (main.js line 52); the
`Math.random()` draw is passed in as `u`. -/
def rand (a b u : ℚ) : ℚ := a + u * (b - a)

/-- JS `randi(a, b) = a + Math.floor(Math.random() * (b - a + 1))`
(main.js line 53). -/
def randi (a b u : ℚ) : ℚ := a + ((⌊u * (b - a + 1)⌋ : ℤ) : ℚ)

/-- The exact rational value of the IEEE-754 double `Math.PI`. -/
def piJS : ℚ := 884279719003555 / 281474976710656

/-- JS `cubicBezier(a, b, c, d, t)` (main.js lines 339-342). -/
def cubicBezier (a b c d t : ℚ) : ℚ :=
  let mt := 1 - t
  (mt * mt * mt) * a + 3 * (mt * mt) * t * b + 3 * mt * (t * t) * c + (t * t * t) * d

/-- A 2D point. -/
structure Point where
  x : ℚ
  y : ℚ
  deriving DecidableEq

/-- One branch segment pushed by `tree._growRecursive` (main.js lines 243-248). -/
structure Segment where
  p0 : Point
  p1 : Point
  p2 : Point
  p3 : Point
  thickness : ℚ
  depth : ℕ
  swaySeed : ℚ
  deriving DecidableEq

/-- The node record passed to `tree._growRecursive` (main.js lines 210-218, 263-271). -/
structure TNode where
  x : ℚ
  y : ℚ
  angle : ℚ
  len : ℚ
  thickness : ℚ
  depth : ℕ
  swaySeed : ℚ
  deriving DecidableEq

/-- The segment a single `_growRecursive` invocation pushes for its node
(main.js lines 227-248): the curve control points built from the random
`bend` draw `σ ri`, with the node's thickness, depth and sway seed. -/
def nodeSegment (c s : ℚ → ℚ) (σ : ℕ → ℚ) (node : TNode) (ri : ℕ) : Segment :=
  { p0 := ⟨node.x, node.y⟩
    p1 := ⟨node.x + c (node.angle + rand (-0.35) 0.35 (σ ri)) * (node.len * 0.35),
           node.y + s (node.angle + rand (-0.35) 0.35 (σ ri)) * (node.len * 0.35)⟩
    p2 := ⟨node.x + c (node.angle - rand (-0.35) 0.35 (σ ri) * 0.3) * (node.len * 0.7),
           node.y + s (node.angle - rand (-0.35) 0.35 (σ ri) * 0.3) * (node.len * 0.7)⟩
    p3 := ⟨node.x + c (node.angle + rand (-0.35) 0.35 (σ ri) * 0.15) * node.len,
           node.y + s (node.angle + rand (-0.35) 0.35 (σ ri) * 0.15) * node.len⟩
    thickness := node.thickness
    depth := node.depth
    swaySeed := node.swaySeed }

/-- The child node spawned at branch index `i` (main.js lines 254-271):
draws `t`, the length factor, the thickness factor and the angle
perturbation at `σ ri .. σ (ri+3)`, in source order. -/
def childNode (σ : ℕ → ℚ) (maxDepth : ℕ) (node : TNode) (seg : Segment)
    (i : ℕ) (ri : ℕ) : TNode :=
  { x := cubicBezier seg.p0.x seg.p1.x seg.p2.x seg.p3.x (rand 0.45 0.88 (σ ri))
    y := cubicBezier seg.p0.y seg.p1.y seg.p2.y seg.p3.y (rand 0.45 0.88 (σ ri))
    angle := node.angle +
      rand (-0.75) 0.75 (σ (ri + 3)) * (1 - (node.depth : ℚ) / ((maxDepth : ℚ) + 1))
    len := node.len * rand 0.58 0.78 (σ (ri + 1))
    thickness := node.thickness * rand 0.62 0.78 (σ (ri + 2))
    depth := node.depth + 1
    swaySeed := node.swaySeed + (i : ℚ) * 97.13 + (node.depth : ℚ) * 33.7 }

/-- `tree._growRecursive(node, maxDepth)` (main.js lines 224-273). Returns
the list of segments pushed by this invocation and its recursive calls, the
next unused random index, and the total number of `_growRecursive`
invocations performed. The `bend` draw uses `σ ri`; when `depth ≥ 2` the
branch-count draw `Math.random() < 0.65` uses the next index; each child
then consumes four draws before its recursive call. -/
def growRecursive (c s : ℚ → ℚ) (σ : ℕ → ℚ) (maxDepth : ℕ) (node : TNode) (ri : ℕ) :
    List Segment × ℕ × ℕ :=
  if h : node.depth ≥ maxDepth then ([nodeSegment c s σ node ri], ri + 1, 1)
  else if node.depth < 2 then
    let r1 := growRecursive c s σ maxDepth
      (childNode σ maxDepth node (nodeSegment c s σ node ri) 0 (ri + 1)) (ri + 5)
    let r2 := growRecursive c s σ maxDepth
      (childNode σ maxDepth node (nodeSegment c s σ node ri) 1 r1.2.1) (r1.2.1 + 4)
    (nodeSegment c s σ node ri :: (r1.1 ++ r2.1), r2.2.1, 1 + (r1.2.2 + r2.2.2))
  else if σ (ri + 1) < 0.65 then
    let r1 := growRecursive c s σ maxDepth
      (childNode σ maxDepth node (nodeSegment c s σ node ri) 0 (ri + 2)) (ri + 6)
    let r2 := growRecursive c s σ maxDepth
      (childNode σ maxDepth node (nodeSegment c s σ node ri) 1 r1.2.1) (r1.2.1 + 4)
    (nodeSegment c s σ node ri :: (r1.1 ++ r2.1), r2.2.1, 1 + (r1.2.2 + r2.2.2))
  else
    let r1 := growRecursive c s σ maxDepth
      (childNode σ maxDepth node (nodeSegment c s σ node ri) 0 (ri + 2)) (ri + 6)
    (nodeSegment c s σ node ri :: r1.1, r1.2.1, 1 + r1.2.2)
termination_by maxDepth - node.depth
decreasing_by
  all_goals simp only [childNode]
  all_goals omega

/-- Growth duration from `tree.update` (main.js line 276):
`clamp(6.5 - state.w / 900, 4.8, 7.2)`. -/
def growTime (w : ℚ) : ℚ := clamp (6.5 - w / 900) 4.8 7.2

/-- The clamped growth ratio `t` from `tree.update` (main.js line 277):
`clamp(scene.timeIn / growTime, 0, 1)`. -/
def treeRatio (w timeIn : ℚ) : ℚ := clamp (timeIn / growTime w) 0 1

/-- `tree.progress` after `tree.update` (main.js line 278): `smoothstep(t)`. -/
def treeProgress (w timeIn : ℚ) : ℚ := smoothstep (treeRatio w timeIn)

/-- `tree.grown` after `tree.update` (main.js line 279): `t >= 1`. -/
def treeGrown (w timeIn : ℚ) : Bool := decide (1 ≤ treeRatio w timeIn)

/-- The number of segments revealed by `tree.draw` (main.js line 283):
`Math.floor(n * this.progress)`. -/
def revealCount (n : ℕ) (progress : ℚ) : ℤ := ⌊(n : ℚ) * progress⌋

/-- A sampled target point `{x, y, lum}` (main.js line 406). -/
structure TargetPoint where
  x : ℚ
  y : ℚ
  lum : ℚ
  deriving DecidableEq

/-- Perceptual luminance of one pixel (main.js line 400):
`(0.2126 * r + 0.7152 * g + 0.0722 * b) / 255`. -/
def lumOf (r g b : ℕ) : ℚ := (0.2126 * (r : ℚ) + 0.7152 * (g : ℚ) + 0.0722 * (b : ℚ)) / 255

/-- The sampler's keep probability for a pixel of luminance `lum`
(main.js line 404): `clamp((lum - 0.15) * 1.6, 0, 1)`. -/
def keepProb (lum : ℚ) : ℚ := clamp ((lum - 0.15) * 1.6) 0 1

/-- The inner sampling loop `for (x = 0; x < portraitW; x += step)`
(main.js lines 397-408) at row `y`. `data x y` models the RGB readback of
the offscreen canvas at grid cell `(x, y)` (the `getImageData` buffer is
environment-owned); one `Math.random()` draw is consumed per visited cell. -/
def sampleRow (data : ℕ → ℕ → ℕ × ℕ × ℕ) (σ : ℕ → ℚ) (W : ℚ) (y : ℕ) (step : ℕ)
    (x : ℕ) (ri : ℕ) : List TargetPoint × ℕ :=
  if h : (x : ℚ) < W ∧ 0 < step then
    let (r, g, b) := data x y
    let rest := sampleRow data σ W y step (x + step) (ri + 1)
    if σ ri < keepProb (lumOf r g b) then
      (⟨(x : ℚ), (y : ℚ), lumOf r g b⟩ :: rest.1, rest.2)
    else rest
  else ([], ri)
termination_by (⌈W⌉.toNat - x)
decreasing_by
  obtain ⟨h1, h2⟩ := h
  have hx : (x : ℤ) < ⌈W⌉ := by
    have := lt_of_lt_of_le h1 (Int.le_ceil W)
    exact_mod_cast this
  omega

/-- The outer sampling loop `for (y = 0; y < portraitH; y += step)`
(main.js lines 396-409): rows are concatenated in visit order. -/
def sampleGrid (data : ℕ → ℕ → ℕ × ℕ × ℕ) (σ : ℕ → ℚ) (W H : ℚ) (step : ℕ)
    (y : ℕ) (ri : ℕ) : List TargetPoint × ℕ :=
  if h : (y : ℚ) < H ∧ 0 < step then
    let row := sampleRow data σ W y step 0 ri
    let rest := sampleGrid data σ W H step (y + step) row.2
    (row.1 ++ rest.1, rest.2)
  else ([], ri)
termination_by (⌈H⌉.toNat - y)
decreasing_by
  obtain ⟨h1, h2⟩ := h
  have hy : (y : ℤ) < ⌈H⌉ := by
    have := lt_of_lt_of_le h1 (Int.le_ceil H)
    exact_mod_cast this
  omega

/-- The synthetic fallback points pushed by the `for (k = 0; k < 900; k++)`
loop (main.js lines 413-419), `k` counting the pushes still to do: each
point draws `x = randi(0, portraitW - 1)`, `y = randi(0, portraitH - 1)`,
`lum = rand(0.2, 0.9)`, three `Math.random()` draws in source order. -/
def mkSynthPoints (σ : ℕ → ℚ) (W H : ℚ) (k : ℕ) (ri : ℕ) : List TargetPoint × ℕ :=
  match k with
  | 0 => ([], ri)
  | k + 1 =>
    let p : TargetPoint := ⟨randi 0 (W - 1) (σ ri), randi 0 (H - 1) (σ (ri + 1)),
                            rand 0.2 0.9 (σ (ri + 2))⟩
    let rest := mkSynthPoints σ W H k (ri + 3)
    (p :: rest.1, rest.2)

/-- The minimum-count fallback (main.js lines 411-420): if fewer than 600
points were sampled, append exactly 900 synthetic points; otherwise leave
the list untouched. -/
def padPoints (σ : ℕ → ℚ) (W H : ℚ) (pts : List TargetPoint) (ri : ℕ) :
    List TargetPoint × ℕ :=
  if pts.length < 600 then
    let s := mkSynthPoints σ W H 900 ri
    (pts ++ s.1, s.2)
  else (pts, ri)

/-- A particle of the portrait field (main.js lines 463-475). `img` is the
index of the assigned tile photograph, `none` while unassigned. -/
structure Particle where
  tx : ℚ
  ty : ℚ
  x : ℚ
  y : ℚ
  vx : ℚ
  vy : ℚ
  size : ℚ
  rot : ℚ
  rotV : ℚ
  a : ℚ
  lum : ℚ
  img : Option ℕ
  delay : ℚ
  deriving DecidableEq

/-- The mutable state of `facePortrait` (main.js lines 347-368). `offW`,
`offH` are the offscreen canvas dimensions (a fresh canvas defaults to
300x150; `tryBuildTargets` overwrites them with the floored portrait size). -/
structure FacePortrait where
  ready : Bool
  targetPoints : List TargetPoint
  particles : List Particle
  builtOnce : Bool
  fadeIn : ℚ
  offW : ℚ
  offH : ℚ
  deriving DecidableEq

/-- `facePortrait.init()` (main.js lines 358-367). -/
def facePortraitInit : FacePortrait :=
  { ready := false, targetPoints := [], particles := [], builtOnce := false,
    fadeIn := 0, offW := 300, offH := 150 }

/-- `facePortrait.tryBuildTargets()` (main.js lines 370-428). `faceOk`
models `images.face.ok && images.face.img`; `data` models the pixel
readback of the cover-fitted face drawn into the offscreen canvas. Returns
the new portrait state and the next unused random index. -/
def tryBuildTargets (w : ℚ) (faceOk : Bool) (data : ℕ → ℕ → ℕ × ℕ × ℕ) (σ : ℕ → ℚ)
    (ri : ℕ) (fp : FacePortrait) : FacePortrait × ℕ :=
  if fp.builtOnce then (fp, ri)
  else if !faceOk then (fp, ri)
  else
    let portraitW := min 420 (w * 0.58)
    let portraitH := portraitW
    let step : ℕ := (max 4 (min 8 ⌊portraitW / 80⌋)).toNat
    let sampled := sampleGrid data σ portraitW portraitH step 0 ri
    let padded := padPoints σ portraitW portraitH sampled.1 sampled.2
    ({ ready := true, targetPoints := padded.1, particles := [], builtOnce := true,
       fadeIn := fp.fadeIn, offW := ((⌊portraitW⌋ : ℤ) : ℚ),
       offH := ((⌊portraitH⌋ : ℤ) : ℚ) }, padded.2)

/-- The `for (k = 0; k < 6; k++)` retry loop of `getRandomTileImage`
(main.js lines 119-124), `k` counting tries left. `tiles` models
`images.tiles`: `some j` for a slot whose load completed with `ok` and an
image handle `j`, `none` for a missing/failed slot (`it && it.ok && it.img`
then fails, as it does in JS for holes and failed loads). -/
def tilePickLoop (tiles : List (Option ℕ)) (σ : ℕ → ℚ) (k : ℕ) (ri : ℕ) : Option ℕ × ℕ :=
  match k with
  | 0 => (none, ri)
  | k + 1 =>
    let idx : ℤ := ⌊σ ri * ((tiles.length : ℚ) - 1 - 0 + 1)⌋
    let it : Option ℕ :=
      if 0 ≤ idx then tiles.getD idx.toNat none else none
    match it with
    | some j => (some j, ri + 1)
    | none => tilePickLoop tiles σ k (ri + 1)

/-- `getRandomTileImage()` (main.js lines 116-125). -/
def getRandomTileImage (tiles : List (Option ℕ)) (σ : ℕ → ℚ) (ri : ℕ) : Option ℕ × ℕ :=
  if tiles.length = 0 then (none, ri)
  else tilePickLoop tiles σ 6 ri

/-- One particle built by the body of the `spawnBatch` loop (main.js
lines 449-475), for target point `tp`. Random draws, in source order:
size factor, spawn-x jitter, spawn-y jitter, rotation, angular velocity,
then the tile picks inside `getRandomTileImage()`, then the delay. -/
def spawnOne (w h offW : ℚ) (tiles : List (Option ℕ)) (σ : ℕ → ℚ)
    (tp : TargetPoint) (ri : ℕ) : Particle × ℕ :=
  let portraitW := offW
  let centerX := w * 0.5
  let topY := h * 0.25
  let left := centerX - portraitW * 0.5
  let top := topY
  let baseSize := clamp (portraitW / 40) 7 14
  let size := baseSize * rand 0.70 1.25 (σ ri)
  let spawnX := centerX + rand (-30) 30 (σ (ri + 1))
  let spawnY := h * 0.62 + rand 0 40 (σ (ri + 2))
  let rot := rand (-piJS) piJS (σ (ri + 3))
  let rotV := rand (-0.012) 0.012 (σ (ri + 4))
  let pick := getRandomTileImage tiles σ (ri + 5)
  ({ tx := left + tp.x, ty := top + tp.y,
     x := spawnX, y := spawnY, vx := 0, vy := 0,
     size := size, rot := rot, rotV := rotV,
     a := 0, lum := tp.lum, img := pick.1,
     delay := rand 0 1.2 (σ pick.2) }, pick.2 + 1)

/-- The `for (i = start; i < end; i++)` loop of `spawnBatch` (main.js
lines 449-476), with `count` particles still to push starting at index `i`. -/
def spawnLoop (w h offW : ℚ) (tiles : List (Option ℕ)) (σ : ℕ → ℚ)
    (tps : List TargetPoint) (i : ℕ) (count : ℕ) (ri : ℕ) : List Particle × ℕ :=
  match count with
  | 0 => ([], ri)
  | c + 1 =>
    let one := spawnOne w h offW tiles σ (tps.getD i ⟨0, 0, 0⟩) ri
    let rest := spawnLoop w h offW tiles σ tps (i + 1) c one.2
    (one.1 :: rest.1, rest.2)

/-- `facePortrait.spawnBatch(maxNew)` (main.js lines 430-477). -/
def spawnBatch (w h : ℚ) (tiles : List (Option ℕ)) (σ : ℕ → ℚ) (maxNew : ℕ)
    (ri : ℕ) (fp : FacePortrait) : FacePortrait × ℕ :=
  if !fp.ready then (fp, ri)
  else
    let total := fp.targetPoints.length
    if fp.particles.length ≥ total then (fp, ri)
    else
      let start := fp.particles.length
      let stop := min total (start + maxNew)
      let newPs := spawnLoop w h fp.offW tiles σ fp.targetPoints start (stop - start) ri
      ({ fp with particles := fp.particles ++ newPs.1 }, newPs.2)

/-- The luminance-derived alpha target (main.js line 520):
`clamp(0.55 + p.lum * 0.55, 0.35, 0.95)`. -/
def targetAlpha (lum : ℚ) : ℚ := clamp (0.55 + lum * 0.55) 0.35 0.95

/-- One iteration of the particle-update loop in `facePortrait.update`
(main.js lines 494-522) for the particle at index `i`. A missing tile image
is re-attempted first; a particle whose delay has not elapsed
(`scene.timeIn - p.delay < 0`) is otherwise left untouched; `sq` models
`Math.sin` for the cosmetic vertical float. -/
def updateParticle (sq : ℚ → ℚ) (now timeIn : ℚ) (tiles : List (Option ℕ)) (σ : ℕ → ℚ)
    (i : ℕ) (p : Particle) (ri : ℕ) : Particle × ℕ :=
  let pick := if p.img.isNone then getRandomTileImage tiles σ ri else (p.img, ri)
  let p1 := { p with img := pick.1 }
  if timeIn - p1.delay < 0 then (p1, pick.2)
  else
    let settle : ℚ := 0.085
    let damp : ℚ := 0.88
    let vx := (p1.vx + (p1.tx - p1.x) * settle) * damp
    let vy := (p1.vy + (p1.ty - p1.y) * settle) * damp
    let flo := sq (now * 0.001 + (i : ℚ) * 0.03) * 0.10
    ({ p1 with
        x := p1.x + vx, y := p1.y + vy + flo,
        vx := vx, vy := vy,
        rot := p1.rot + p1.rotV,
        a := lerp p1.a (targetAlpha p1.lum) 0.06 }, pick.2)

/-- The whole particle-update loop of `facePortrait.update` (main.js
lines 494-522), over the particle list with running index `i`. -/
def updateParticles (sq : ℚ → ℚ) (now timeIn : ℚ) (tiles : List (Option ℕ)) (σ : ℕ → ℚ)
    (i : ℕ) (ps : List Particle) (ri : ℕ) : List Particle × ℕ :=
  match ps with
  | [] => ([], ri)
  | p :: rest =>
    let one := updateParticle sq now timeIn tiles σ i p ri
    let more := updateParticles sq now timeIn tiles σ (i + 1) rest one.2
    (one.1 :: more.1, more.2)

/-- `facePortrait.update(dt)` (main.js lines 479-523): build targets if
possible, spawn a bounded batch (70 on viewports narrower than 520, else
120), recompute the scene fade-in, then run the particle loop. -/
def facePortraitUpdate (w h : ℚ) (sq : ℚ → ℚ) (now timeIn : ℚ) (faceOk : Bool)
    (data : ℕ → ℕ → ℕ × ℕ × ℕ) (tiles : List (Option ℕ)) (σ : ℕ → ℚ) (ri : ℕ)
    (fp : FacePortrait) : FacePortrait × ℕ :=
  let built := tryBuildTargets w faceOk data σ ri fp
  let batched := spawnBatch w h tiles σ (if w < 520 then 70 else 120) built.2 built.1
  let fp2 := { batched.1 with fadeIn := smoothstep (clamp (timeIn / 2.2) 0 1) }
  let looped := updateParticles sq now timeIn tiles σ 0 fp2.particles batched.2
  ({ fp2 with particles := looped.1 }, looped.2)

/-- The scene tags (main.js lines 130-135). -/
inductive SceneName
  | seed
  | tree
  | pause
  | face
  deriving DecidableEq

/-- The state of `tree` that `update` touches (main.js lines 193-197);
the precomputed segment list is generated once at init and never changed
by `update`, so it is kept outside this record. -/
structure TreeState where
  progress : ℚ
  grown : Bool
  deriving DecidableEq

/-- The mutable simulation state driven by `update(dt)`: the scene tag and
its local elapsed time (main.js lines 137-144), `seed.bloom` (main.js
line 153; the draw-only placement fields of `seed` are untouched by
`update`), the tree's growth state, and the portrait. -/
structure SimState where
  sceneName : SceneName
  timeIn : ℚ
  seedBloom : ℚ
  tree : TreeState
  portrait : FacePortrait
  deriving DecidableEq

/-- `scene.switchTo(next)` (main.js lines 140-143). -/
def switchTo (st : SimState) (next : SceneName) : SimState :=
  { st with sceneName := next, timeIn := 0 }

/-- `seed.update(dt)` (main.js lines 160-164): `bloom = smoothstep(clamp(scene.timeIn / 2.2, 0, 1))`. -/
def seedBloomAt (timeIn : ℚ) : ℚ := smoothstep (clamp (timeIn / 2.2) 0 1)

/-- The state after `resetAll()` (main.js lines 613-619). -/
def initialSim : SimState :=
  { sceneName := .seed, timeIn := 0, seedBloom := 0,
    tree := { progress := 0, grown := false }, portrait := facePortraitInit }

/-- The per-tick `update(dt)` (main.js lines 625-644): bump the scene's
local time, then run the active scene's update and its transition check. -/
def simUpdate (w h : ℚ) (sq : ℚ → ℚ) (now : ℚ) (faceOk : Bool)
    (data : ℕ → ℕ → ℕ × ℕ × ℕ) (tiles : List (Option ℕ)) (σ : ℕ → ℚ) (ri : ℕ)
    (dt : ℚ) (st : SimState) : SimState × ℕ :=
  let st1 := { st with timeIn := st.timeIn + dt }
  match st1.sceneName with
  | .seed =>
    let st2 := { st1 with seedBloom := seedBloomAt st1.timeIn }
    if st2.timeIn > 2.4 then (switchTo st2 .tree, ri) else (st2, ri)
  | .tree =>
    let st2 := { st1 with tree := { progress := treeProgress w st1.timeIn,
                                    grown := treeGrown w st1.timeIn } }
    if st2.tree.grown then (switchTo st2 .pause, ri) else (st2, ri)
  | .pause =>
    if st1.timeIn > 1.2 then (switchTo st1 .face, ri) else (st1, ri)
  | .face =>
    let upd := facePortraitUpdate w h sq now st1.timeIn faceOk data tiles σ ri st1.portrait
    ({ st1 with portrait := upd.1 }, upd.2)

/-! ## C1: growth duration vs. viewport width -/

/-- C1 is false as stated: the code computes `clamp(6.5 - w/900, 4.8, 7.2)`,
so the NARROWER viewport 450 gets a LONGER duration (6.0) than the wider
viewport 900 (5.5) — the claimed `duration(w1) ≤ duration(w2)` fails at
`w1 = 450 < w2 = 900`. -/
theorem growTime_not_monotone_counterexample :
    (450 : ℚ) < 900 ∧ ¬ growTime 450 ≤ growTime 900 := by
  constructor
  · norm_num
  · norm_num [growTime, clamp, min_def, max_def]

/-- C1 (amended): the growth duration is `clamp(6.5 - w/900, 4.8, 7.2)`,
always within `[4.8, 7.2]`, and it is antitone in the viewport width:
narrower viewports get an equal or LONGER duration than wider ones. -/
theorem growTime_clamped_antitone (w1 w2 : ℚ) :
    4.8 ≤ growTime w1 ∧ growTime w1 ≤ 7.2 ∧
    (w1 ≤ w2 → growTime w2 ≤ growTime w1) := by
  simp only [growTime, clamp]
  refine ⟨le_max_left _ _, max_le (by norm_num) (min_le_left _ _), ?_⟩
  intro hw
  have hv : 6.5 - w2 / 900 ≤ 6.5 - w1 / 900 := by linarith
  exact max_le_max le_rfl (min_le_min le_rfl hv)

/-- Witness for `growTime_clamped_antitone` at `w1 = 450`, `w2 = 900`. -/
theorem growTime_clamped_antitone_witness :
    (4.8 : ℚ) ≤ growTime 450 ∧ growTime 450 ≤ 7.2 ∧ growTime 900 ≤ growTime 450 := by
  obtain ⟨h1, h2, h3⟩ := growTime_clamped_antitone 450 900
  exact ⟨h1, h2, h3 (by norm_num)⟩

/-! ## C2: Seed → Tree transition timing -/

/-- C2 is false as stated: feeding two ticks of 1.2 time units each —
accumulated deltas totalling exactly 2.4 — from the initial Seed state
leaves the scene in Seed with `timeIn = 2.4`, because the transition test
is the strict `scene.timeIn > 2.4`. -/
theorem seedToTree_exact_total_counterexample :
    (simUpdate 1000 800 (fun x => x) 0 false (fun _ _ => (0, 0, 0)) [] (fun _ => 0) 0 1.2
      ((simUpdate 1000 800 (fun x => x) 0 false (fun _ _ => (0, 0, 0)) [] (fun _ => 0) 0 1.2
        initialSim).1)).1.sceneName = SceneName.seed ∧
    (simUpdate 1000 800 (fun x => x) 0 false (fun _ _ => (0, 0, 0)) [] (fun _ => 0) 0 1.2
      ((simUpdate 1000 800 (fun x => x) 0 false (fun _ _ => (0, 0, 0)) [] (fun _ => 0) 0 1.2
        initialSim).1)).1.timeIn = 2.4 := by
  constructor <;>
    norm_num [simUpdate, initialSim, switchTo, seedBloomAt, smoothstep, clamp,
      facePortraitInit]

/-- C2 (amended): in the Seed scene the transition test is strict — the
tick that makes Seed's elapsed time strictly exceed 2.4 switches the scene
to Tree with its local elapsed-time counter reset to zero, while any tick
leaving the accumulated time at or below 2.4 (including exactly 2.4)
leaves the scene in Seed with the accumulated time. -/
theorem seedToTree_transition (w h : ℚ) (sq : ℚ → ℚ) (now : ℚ) (faceOk : Bool)
    (data : ℕ → ℕ → ℕ × ℕ × ℕ) (tiles : List (Option ℕ)) (σ : ℕ → ℚ) (ri : ℕ)
    (dt : ℚ) (st : SimState) (hs : st.sceneName = SceneName.seed) :
    (2.4 < st.timeIn + dt →
      (simUpdate w h sq now faceOk data tiles σ ri dt st).1.sceneName = SceneName.tree ∧
      (simUpdate w h sq now faceOk data tiles σ ri dt st).1.timeIn = 0) ∧
    (st.timeIn + dt ≤ 2.4 →
      (simUpdate w h sq now faceOk data tiles σ ri dt st).1.sceneName = SceneName.seed ∧
      (simUpdate w h sq now faceOk data tiles σ ri dt st).1.timeIn = st.timeIn + dt) := by
  rcases st with ⟨nm, t, bl, tr, fp⟩
  dsimp only at hs
  subst hs
  constructor
  · intro hgt
    simp only [simUpdate, switchTo]
    rw [if_pos (by exact hgt)]
    exact ⟨rfl, rfl⟩
  · intro hle
    simp only [simUpdate, switchTo]
    rw [if_neg (by simpa using not_lt.mpr hle)]
    exact ⟨rfl, rfl⟩

/-- Witness for `seedToTree_transition`: a single tick of 3 time units from
the initial state switches to Tree with the counter reset. -/
theorem seedToTree_transition_witness :
    (simUpdate 1000 800 (fun x => x) 0 false (fun _ _ => (0, 0, 0)) [] (fun _ => 0) 0 3
      initialSim).1.sceneName = SceneName.tree ∧
    (simUpdate 1000 800 (fun x => x) 0 false (fun _ _ => (0, 0, 0)) [] (fun _ => 0) 0 3
      initialSim).1.timeIn = 0 :=
  (seedToTree_transition 1000 800 (fun x => x) 0 false (fun _ _ => (0, 0, 0)) []
    (fun _ => 0) 0 3 initialSim rfl).1 (by norm_num [initialSim])

/-! ## C5: luminance keep probability -/

/-- C5: the sampler's keep probability is `clamp((lum - 0.15) * 1.6, 0, 1)`
over the perceptual luminance `(0.2126 R + 0.7152 G + 0.0722 B)/255`; it is
monotone in the luminance, exactly 0 for `lum ≤ 0.15`, and exactly 1 for
`lum ≥ 0.775`. -/
theorem keepProb_spec (l1 l2 : ℚ) (r g b : ℕ) :
    lumOf r g b = (0.2126 * (r : ℚ) + 0.7152 * (g : ℚ) + 0.0722 * (b : ℚ)) / 255 ∧
    (l1 ≤ l2 → keepProb l1 ≤ keepProb l2) ∧
    (l1 ≤ 0.15 → keepProb l1 = 0) ∧
    (0.775 ≤ l1 → keepProb l1 = 1) := by
  refine ⟨rfl, ?_, ?_, ?_⟩
  · intro hl
    simp only [keepProb, clamp]
    exact max_le_max le_rfl (min_le_min le_rfl (by linarith))
  · intro hl
    simp only [keepProb, clamp]
    rw [min_eq_right (by linarith), max_eq_left (by linarith)]
  · intro hl
    simp only [keepProb, clamp]
    rw [min_eq_left (by linarith), max_eq_right (by norm_num)]

/-- Witness for `keepProb_spec` at luminances 0.1 (dark), 0.5, and 0.8
(bright). -/
theorem keepProb_spec_witness :
    keepProb 0.1 ≤ keepProb 0.5 ∧ keepProb 0.1 = 0 ∧ keepProb 0.8 = 1 :=
  ⟨(keepProb_spec 0.1 0.5 0 0 0).2.1 (by norm_num),
   (keepProb_spec 0.1 0.5 0 0 0).2.2.1 (by norm_num),
   (keepProb_spec 0.8 0.8 0 0 0).2.2.2 (by norm_num)⟩

/-! ## C8: alpha easing never overshoots -/

/-- C8: each particle-loop iteration moves the particle's alpha toward the
luminance-derived target `clamp(0.55 + lum * 0.55, 0.35, 0.95)` by linear
interpolation with factor 0.06 (once its start delay has elapsed), and the
distance to the target never increases on any tick. -/
theorem particleAlpha_no_overshoot (sq : ℚ → ℚ) (now timeIn : ℚ)
    (tiles : List (Option ℕ)) (σ : ℕ → ℚ) (i : ℕ) (p : Particle) (ri : ℕ) :
    |(updateParticle sq now timeIn tiles σ i p ri).1.a - targetAlpha p.lum| ≤
      |p.a - targetAlpha p.lum| ∧
    (0 ≤ timeIn - p.delay →
      (updateParticle sq now timeIn tiles σ i p ri).1.a =
        lerp p.a (targetAlpha p.lum) 0.06) := by
  have key : ∀ a t : ℚ, |lerp a t 0.06 - t| ≤ |a - t| := by
    intro a t
    have he : lerp a t 0.06 - t = (a - t) * (47 / 50) := by
      simp only [lerp]; ring
    rw [he, abs_mul]
    have h1 : |((47 : ℚ) / 50)| ≤ 1 := by rw [abs_of_pos] <;> norm_num
    calc |a - t| * |((47 : ℚ) / 50)| ≤ |a - t| * 1 := by
          exact mul_le_mul_of_nonneg_left h1 (abs_nonneg _)
      _ = |a - t| := mul_one _
  by_cases hd : timeIn - p.delay < 0
  · refine ⟨?_, ?_⟩
    · simp [updateParticle, hd]
    · intro hge; linarith
  · refine ⟨?_, ?_⟩
    · simp only [updateParticle, hd, if_false]
      simpa using key p.a (targetAlpha p.lum)
    · intro hge
      simp [updateParticle, hd]

/-- Witness for `particleAlpha_no_overshoot` on a concrete particle with
luminance 1/2 and delay 1 at scene time 5. -/
theorem particleAlpha_no_overshoot_witness :
    |(updateParticle (fun x => x) 0 5 [] (fun _ => 0) 0
        ⟨0, 0, 0, 0, 0, 0, 1, 0, 0, 0, 1/2, none, 1⟩ 0).1.a -
      targetAlpha (1/2)| ≤ |(0 : ℚ) - targetAlpha (1/2)| ∧
    (updateParticle (fun x => x) 0 5 [] (fun _ => 0) 0
        ⟨0, 0, 0, 0, 0, 0, 1, 0, 0, 0, 1/2, none, 1⟩ 0).1.a =
      lerp 0 (targetAlpha (1/2)) 0.06 :=
  ⟨(particleAlpha_no_overshoot (fun x => x) 0 5 [] (fun _ => 0) 0
      ⟨0, 0, 0, 0, 0, 0, 1, 0, 0, 0, 1/2, none, 1⟩ 0).1,
   (particleAlpha_no_overshoot (fun x => x) 0 5 [] (fun _ => 0) 0
      ⟨0, 0, 0, 0, 0, 0, 1, 0, 0, 0, 1/2, none, 1⟩ 0).2 (by norm_num)⟩

/-! ## C3: segment count and depth bound of the generated tree -/

@[simp]
lemma nodeSegment_depth (c s : ℚ → ℚ) (σ : ℕ → ℚ) (node : TNode) (ri : ℕ) :
    (nodeSegment c s σ node ri).depth = node.depth := rfl

@[simp]
lemma childNode_depth (σ : ℕ → ℚ) (maxDepth : ℕ) (node : TNode) (seg : Segment)
    (i ri : ℕ) : (childNode σ maxDepth node seg i ri).depth = node.depth + 1 := rfl

/-- Structural facts about `_growRecursive`, for any recursion limit: the
list of pushed segments starts with the invocation's own segment, its
length equals the number of recursive invocations, and — when the entry
depth is within the limit — every pushed segment's depth stays within it. -/
theorem growRecursive_spec (c s : ℚ → ℚ) (σ : ℕ → ℚ) (maxDepth : ℕ) :
    ∀ (fuel : ℕ) (node : TNode) (ri : ℕ), maxDepth - node.depth ≤ fuel →
      node.depth ≤ maxDepth →
      (growRecursive c s σ maxDepth node ri).1.length =
        (growRecursive c s σ maxDepth node ri).2.2 ∧
      (∀ seg ∈ (growRecursive c s σ maxDepth node ri).1, seg.depth ≤ maxDepth) ∧
      ∃ tl, (growRecursive c s σ maxDepth node ri).1 = nodeSegment c s σ node ri :: tl := by
  intro fuel
  induction fuel with
  | zero =>
    intro node ri hf hd
    have hstop : node.depth ≥ maxDepth := by omega
    rw [growRecursive, dif_pos hstop]
    refine ⟨rfl, ?_, ⟨[], rfl⟩⟩
    intro seg hseg
    rw [List.mem_singleton] at hseg
    subst hseg
    simpa using hd
  | succ fuel ih =>
    intro node ri hf hd
    by_cases hstop : node.depth ≥ maxDepth
    · rw [growRecursive, dif_pos hstop]
      refine ⟨rfl, ?_, ⟨[], rfl⟩⟩
      intro seg hseg
      rw [List.mem_singleton] at hseg
      subst hseg
      simpa using hd
    · have hok1 : ∀ (i ri' : ℕ),
          maxDepth - (childNode σ maxDepth node (nodeSegment c s σ node ri) i ri').depth ≤ fuel := by
        intro i ri'
        simp only [childNode_depth]
        omega
      have hok2 : ∀ (i ri' : ℕ),
          (childNode σ maxDepth node (nodeSegment c s σ node ri) i ri').depth ≤ maxDepth := by
        intro i ri'
        simp only [childNode_depth]
        omega
      by_cases hlt : node.depth < 2
      · rw [growRecursive, dif_neg hstop, if_pos hlt]
        simp only []
        obtain ⟨hL1, hM1, tl1, hH1⟩ :=
          ih (childNode σ maxDepth node (nodeSegment c s σ node ri) 0 (ri + 1)) (ri + 5)
            (hok1 0 (ri + 1)) (hok2 0 (ri + 1))
        obtain ⟨hL2, hM2, tl2, hH2⟩ :=
          ih (childNode σ maxDepth node (nodeSegment c s σ node ri) 1
              (growRecursive c s σ maxDepth
                (childNode σ maxDepth node (nodeSegment c s σ node ri) 0 (ri + 1)) (ri + 5)).2.1)
            ((growRecursive c s σ maxDepth
                (childNode σ maxDepth node (nodeSegment c s σ node ri) 0 (ri + 1)) (ri + 5)).2.1 + 4)
            (hok1 1 _) (hok2 1 _)
        refine ⟨?_, ?_, ⟨_, rfl⟩⟩
        · simp only [List.length_cons, List.length_append, hL1, hL2]
          omega
        · intro seg hseg
          simp only [List.mem_cons, List.mem_append] at hseg
          rcases hseg with rfl | hseg | hseg
          · simpa using hd
          · exact hM1 seg hseg
          · exact hM2 seg hseg
      · by_cases hp : σ (ri + 1) < 0.65
        · rw [growRecursive, dif_neg hstop, if_neg hlt, if_pos hp]
          simp only []
          obtain ⟨hL1, hM1, tl1, hH1⟩ :=
            ih (childNode σ maxDepth node (nodeSegment c s σ node ri) 0 (ri + 2)) (ri + 6)
              (hok1 0 (ri + 2)) (hok2 0 (ri + 2))
          obtain ⟨hL2, hM2, tl2, hH2⟩ :=
            ih (childNode σ maxDepth node (nodeSegment c s σ node ri) 1
                (growRecursive c s σ maxDepth
                  (childNode σ maxDepth node (nodeSegment c s σ node ri) 0 (ri + 2)) (ri + 6)).2.1)
              ((growRecursive c s σ maxDepth
                  (childNode σ maxDepth node (nodeSegment c s σ node ri) 0 (ri + 2)) (ri + 6)).2.1 + 4)
              (hok1 1 _) (hok2 1 _)
          refine ⟨?_, ?_, ⟨_, rfl⟩⟩
          · simp only [List.length_cons, List.length_append, hL1, hL2]
            omega
          · intro seg hseg
            simp only [List.mem_cons, List.mem_append] at hseg
            rcases hseg with rfl | hseg | hseg
            · simpa using hd
            · exact hM1 seg hseg
            · exact hM2 seg hseg
        · rw [growRecursive, dif_neg hstop, if_neg hlt, if_neg hp]
          simp only []
          obtain ⟨hL1, hM1, tl1, hH1⟩ :=
            ih (childNode σ maxDepth node (nodeSegment c s σ node ri) 0 (ri + 2)) (ri + 6)
              (hok1 0 (ri + 2)) (hok2 0 (ri + 2))
          refine ⟨?_, ?_, ⟨_, rfl⟩⟩
          · simp only [List.length_cons, hL1]
            omega
          · intro seg hseg
            simp only [List.mem_cons] at hseg
            rcases hseg with rfl | hseg
            · simpa using hd
            · exact hM1 seg hseg

/-- C3: with the recursion limit 7 that `tree.init` passes, every
`_growRecursive` invocation appends exactly one segment (its own, first)
before recursing, the total segment count equals the number of recursive
invocations, and every recorded segment depth is at most 7. -/
theorem growRecursive_count_depth (c s : ℚ → ℚ) (σ : ℕ → ℚ) (node : TNode) (ri : ℕ)
    (h : node.depth ≤ 7) :
    (growRecursive c s σ 7 node ri).1.length = (growRecursive c s σ 7 node ri).2.2 ∧
    (∀ seg ∈ (growRecursive c s σ 7 node ri).1, seg.depth ≤ 7) ∧
    ∃ tl, (growRecursive c s σ 7 node ri).1 = nodeSegment c s σ node ri :: tl :=
  growRecursive_spec c s σ 7 (7 - node.depth) node ri le_rfl h

/-- Witness for `growRecursive_count_depth` at a depth-0 root node with
constant oracles. -/
theorem growRecursive_count_depth_witness :
    (growRecursive (fun _ => 0) (fun _ => 0) (fun _ => 0) 7 ⟨0, 0, 0, 0, 0, 0, 0⟩ 0).1.length =
      (growRecursive (fun _ => 0) (fun _ => 0) (fun _ => 0) 7 ⟨0, 0, 0, 0, 0, 0, 0⟩ 0).2.2 ∧
    (∀ seg ∈ (growRecursive (fun _ => 0) (fun _ => 0) (fun _ => 0) 7 ⟨0, 0, 0, 0, 0, 0, 0⟩ 0).1,
      seg.depth ≤ 7) ∧
    ∃ tl, (growRecursive (fun _ => 0) (fun _ => 0) (fun _ => 0) 7 ⟨0, 0, 0, 0, 0, 0, 0⟩ 0).1 =
      nodeSegment (fun _ => 0) (fun _ => 0) (fun _ => 0) ⟨0, 0, 0, 0, 0, 0, 0⟩ 0 :: tl :=
  growRecursive_count_depth (fun _ => 0) (fun _ => 0) (fun _ => 0) ⟨0, 0, 0, 0, 0, 0, 0⟩ 0
    (by norm_num)

/-! ## C4: reveal count -/

/-- The easing `3t^2 - 2t^3` is monotone on the unit interval. -/
lemma smoothstep_mono {a b : ℚ} (ha : 0 ≤ a) (hab : a ≤ b) (hb : b ≤ 1) :
    smoothstep a ≤ smoothstep b := by
  have h0 : (0 : ℚ) ≤ b := ha.trans hab
  have ha1 : a ≤ 1 := hab.trans hb
  simp only [smoothstep]
  nlinarith [mul_nonneg (sub_nonneg.mpr hab) (mul_nonneg ha (sub_nonneg.mpr hb)),
    mul_nonneg (sub_nonneg.mpr hab) (mul_nonneg h0 (sub_nonneg.mpr ha1)),
    mul_nonneg (sub_nonneg.mpr hab) (mul_nonneg ha (sub_nonneg.mpr ha1)),
    mul_nonneg (sub_nonneg.mpr hab) (mul_nonneg h0 (sub_nonneg.mpr hb))]

/-- C4: the reveal count is `floor(smoothstep(t) * n)` and is monotone in
the clamped growth ratio `t`; with 50 segments and growth duration 5.0
(viewport width 1350), after 2.5 time units it is 25; and the grown flag
is true exactly when the unclamped ratio `timeIn / growTime` reaches 1. -/
theorem revealCount_spec (n : ℕ) (t t' w timeIn : ℚ) :
    revealCount n (smoothstep t) = ⌊smoothstep t * (n : ℚ)⌋ ∧
    (0 ≤ t → t ≤ t' → t' ≤ 1 →
      revealCount n (smoothstep t) ≤ revealCount n (smoothstep t')) ∧
    (growTime 1350 = 5 ∧ revealCount 50 (treeProgress 1350 2.5) = 25) ∧
    (treeGrown w timeIn = true ↔ 1 ≤ timeIn / growTime w) := by
  refine ⟨?_, ?_, ⟨?_, ?_⟩, ?_⟩
  · simp only [revealCount]
    rw [mul_comm]
  · intro h0 hab hb1
    apply Int.floor_le_floor
    exact mul_le_mul_of_nonneg_left (smoothstep_mono h0 hab hb1) (by positivity)
  · norm_num [growTime, clamp, min_def, max_def]
  · norm_num [revealCount, treeProgress, treeRatio, growTime, smoothstep, clamp,
      min_def, max_def]
  · simp only [treeGrown, decide_eq_true_eq, treeRatio, clamp]
    constructor
    · intro hcl
      by_contra hlt
      push_neg at hlt
      have h1 : min 1 (timeIn / growTime w) ≤ timeIn / growTime w := min_le_right _ _
      exact absurd hcl (not_le.mpr (max_lt one_pos (lt_of_le_of_lt h1 hlt)))
    · intro hge
      rw [min_eq_left hge]
      exact le_max_right _ _

/-- Witness for `revealCount_spec`: monotonicity instantiated at the
ratios 1/4 and 3/4 with 50 segments. -/
theorem revealCount_spec_witness :
    revealCount 50 (smoothstep 0.25) ≤ revealCount 50 (smoothstep 0.75) :=
  (revealCount_spec 50 0.25 0.75 1350 2.5).2.1 (by norm_num) (by norm_num) (by norm_num)

/-! ## C6: synthetic fallback points -/

lemma mkSynthPoints_length (σ : ℕ → ℚ) (W H : ℚ) :
    ∀ (k ri : ℕ), (mkSynthPoints σ W H k ri).1.length = k := by
  intro k
  induction k with
  | zero => intro ri; simp [mkSynthPoints]
  | succ k ihk => intro ri; simp [mkSynthPoints, ihk]

lemma randi_box {u W : ℚ} (hu0 : 0 ≤ u) (hu1 : u < 1) (hW : 0 < W) :
    0 ≤ randi 0 (W - 1) u ∧ randi 0 (W - 1) u < W := by
  have harg : u * (W - 1 - 0 + 1) = u * W := by ring
  simp only [randi, harg, zero_add]
  constructor
  · exact_mod_cast Int.floor_nonneg.mpr (mul_nonneg hu0 hW.le)
  · calc ((⌊u * W⌋ : ℤ) : ℚ) ≤ u * W := Int.floor_le _
      _ < 1 * W := by
          exact mul_lt_mul_of_pos_right hu1 hW
      _ = W := one_mul W

lemma rand_lum_box {u : ℚ} (hu0 : 0 ≤ u) (hu1 : u < 1) :
    0.2 ≤ rand 0.2 0.9 u ∧ rand 0.2 0.9 u ≤ 0.9 := by
  simp only [rand]
  constructor <;> nlinarith

lemma mkSynthPoints_box (σ : ℕ → ℚ) (W H : ℚ) (hσ : ∀ n, 0 ≤ σ n ∧ σ n < 1)
    (hW : 0 < W) (hH : 0 < H) :
    ∀ (k ri : ℕ), ∀ q ∈ (mkSynthPoints σ W H k ri).1,
      (0 ≤ q.x ∧ q.x < W) ∧ (0 ≤ q.y ∧ q.y < H) ∧ 0.2 ≤ q.lum ∧ q.lum ≤ 0.9 := by
  intro k
  induction k with
  | zero => intro ri q hq; simp [mkSynthPoints] at hq
  | succ k ihk =>
    intro ri q hq
    simp only [mkSynthPoints, List.mem_cons] at hq
    rcases hq with rfl | hq
    · exact ⟨randi_box (hσ ri).1 (hσ ri).2 hW, randi_box (hσ (ri + 1)).1 (hσ (ri + 1)).2 hH,
        rand_lum_box (hσ (ri + 2)).1 (hσ (ri + 2)).2⟩
    · exact ihk (ri + 3) q hq

/-- C6: when fewer than 600 points were sampled (any count, 0 included),
the fallback keeps every sampled point and appends exactly 900 synthetic
points, each positioned inside the sampled `[0,W) x [0,H)` area with a
luminance in `[0.2, 0.9]`; when 600 or more were sampled, nothing is added. -/
theorem syntheticFallback_spec (σ : ℕ → ℚ) (W H : ℚ) (pts : List TargetPoint) (ri : ℕ)
    (hσ : ∀ n, 0 ≤ σ n ∧ σ n < 1) (hW : 0 < W) (hH : 0 < H) :
    (pts.length < 600 →
      (padPoints σ W H pts ri).1 = pts ++ (mkSynthPoints σ W H 900 ri).1 ∧
      (mkSynthPoints σ W H 900 ri).1.length = 900 ∧
      ∀ q ∈ (mkSynthPoints σ W H 900 ri).1,
        (0 ≤ q.x ∧ q.x < W) ∧ (0 ≤ q.y ∧ q.y < H) ∧ 0.2 ≤ q.lum ∧ q.lum ≤ 0.9) ∧
    (600 ≤ pts.length → (padPoints σ W H pts ri).1 = pts) := by
  constructor
  · intro hlen
    exact ⟨by simp [padPoints, hlen], mkSynthPoints_length σ W H 900 ri,
      mkSynthPoints_box σ W H hσ hW hH 900 ri⟩
  · intro hlen
    simp [padPoints, Nat.not_lt.mpr hlen]

/-- Witness for `syntheticFallback_spec` on an empty sample over a 10x10
area with the constant stream 1/2. -/
theorem syntheticFallback_spec_witness :
    (padPoints (fun _ => 1/2) 10 10 [] 0).1 =
      [] ++ (mkSynthPoints (fun _ => 1/2) 10 10 900 0).1 ∧
    (mkSynthPoints (fun _ => 1/2) 10 10 900 0).1.length = 900 ∧
    ∀ q ∈ (mkSynthPoints (fun _ => 1/2) 10 10 900 0).1,
      (0 ≤ q.x ∧ q.x < 10) ∧ (0 ≤ q.y ∧ q.y < 10) ∧ 0.2 ≤ q.lum ∧ q.lum ≤ 0.9 :=
  (syntheticFallback_spec (fun _ => 1/2) 10 10 [] 0
    (fun _ => ⟨by norm_num, by norm_num⟩) (by norm_num) (by norm_num)).1 (by simp)

/-! ## C7: building the target set is idempotent -/

/-- C7: once a call to `tryBuildTargets` has left `builtOnce` set — which
is the case after any successful build, and is what `ready = true` entails
for states produced by the builder — every subsequent call returns the
portrait state unchanged (target points and ready flag included), consuming
no randomness. -/
theorem tryBuildTargets_idempotent (w1 : ℚ) (f1 : Bool) (d1 : ℕ → ℕ → ℕ × ℕ × ℕ)
    (σ1 : ℕ → ℚ) (r1 : ℕ) (w2 : ℚ) (f2 : Bool) (d2 : ℕ → ℕ → ℕ × ℕ × ℕ)
    (σ2 : ℕ → ℚ) (r2 : ℕ) (fp : FacePortrait)
    (hfirst : (tryBuildTargets w1 f1 d1 σ1 r1 fp).1.builtOnce = true) :
    tryBuildTargets w2 f2 d2 σ2 r2 (tryBuildTargets w1 f1 d1 σ1 r1 fp).1 =
      ((tryBuildTargets w1 f1 d1 σ1 r1 fp).1, r2) ∧
    ((tryBuildTargets w1 f1 d1 σ1 r1 fp).1.ready = true →
      fp.ready = true ∨ (tryBuildTargets w1 f1 d1 σ1 r1 fp).1.builtOnce = true) := by
  refine ⟨?_, fun _ => Or.inr hfirst⟩
  rw [tryBuildTargets]
  rw [if_pos hfirst]

/-- Witness for `tryBuildTargets_idempotent` on an already-built portrait
state. -/
theorem tryBuildTargets_idempotent_witness :
    tryBuildTargets 1000 true (fun _ _ => (0, 0, 0)) (fun _ => 0) 5
        (tryBuildTargets 1000 false (fun _ _ => (0, 0, 0)) (fun _ => 0) 0
          ⟨true, [], [], true, 0, 300, 150⟩).1 =
      ((tryBuildTargets 1000 false (fun _ _ => (0, 0, 0)) (fun _ => 0) 0
          ⟨true, [], [], true, 0, 300, 150⟩).1, 5) ∧
    ((tryBuildTargets 1000 false (fun _ _ => (0, 0, 0)) (fun _ => 0) 0
          ⟨true, [], [], true, 0, 300, 150⟩).1.ready = true →
      (true : Bool) = true ∨
      (tryBuildTargets 1000 false (fun _ _ => (0, 0, 0)) (fun _ => 0) 0
          ⟨true, [], [], true, 0, 300, 150⟩).1.builtOnce = true) :=
  tryBuildTargets_idempotent 1000 false (fun _ _ => (0, 0, 0)) (fun _ => 0) 0
    1000 true (fun _ _ => (0, 0, 0)) (fun _ => 0) 5
    ⟨true, [], [], true, 0, 300, 150⟩ rfl

/-! ## C10: a ready portrait has at least 600 target points -/

lemma padPoints_min (σ : ℕ → ℚ) (W H : ℚ) (pts : List TargetPoint) (ri : ℕ) :
    600 ≤ (padPoints σ W H pts ri).1.length := by
  by_cases hlen : pts.length < 600
  · simp only [padPoints, if_pos hlen, List.length_append, mkSynthPoints_length]
    omega
  · simp only [padPoints, if_neg hlen]
    omega

/-- A case analysis of `tryBuildTargets`: a call either returns the state
(and random index) unchanged, or performs the one successful build, which
sets both flags, clears the particles, and installs a padded target list of
at least 600 points. -/
lemma tryBuildTargets_cases (w : ℚ) (faceOk : Bool) (data : ℕ → ℕ → ℕ × ℕ × ℕ)
    (σ : ℕ → ℚ) (ri : ℕ) (fp : FacePortrait) :
    tryBuildTargets w faceOk data σ ri fp = (fp, ri) ∨
    (fp.builtOnce = false ∧
      (tryBuildTargets w faceOk data σ ri fp).1.ready = true ∧
      (tryBuildTargets w faceOk data σ ri fp).1.builtOnce = true ∧
      (tryBuildTargets w faceOk data σ ri fp).1.particles = [] ∧
      600 ≤ (tryBuildTargets w faceOk data σ ri fp).1.targetPoints.length) := by
  by_cases hb : fp.builtOnce
  · left
    rw [tryBuildTargets, if_pos hb]
  · by_cases hf : faceOk = true
    · right
      refine ⟨by simpa using hb, ?_, ?_, ?_, ?_⟩ <;>
        · rw [tryBuildTargets, if_neg hb]
          simp only [hf, Bool.not_true, Bool.false_eq_true, if_false] <;>
            first
              | rfl
              | exact padPoints_min _ _ _ _ _
    · left
      rw [tryBuildTargets, if_neg hb]
      have : faceOk = false := by
        cases faceOk
        · rfl
        · exact absurd rfl hf
      simp [this]

/-- C10: the ready flag implies at least 600 target points — it holds for
the initial portrait state (vacuously, `ready = false`), is preserved by
every `tryBuildTargets` call (a build installs 600+ sampled points or pads
with 900 synthetic ones), and is preserved by the full portrait update. -/
theorem readyPortrait_min_targets :
    (facePortraitInit.ready = true → 600 ≤ facePortraitInit.targetPoints.length) ∧
    (∀ (w : ℚ) (faceOk : Bool) (data : ℕ → ℕ → ℕ × ℕ × ℕ) (σ : ℕ → ℚ) (ri : ℕ)
        (fp : FacePortrait),
      (fp.ready = true → 600 ≤ fp.targetPoints.length) →
      ((tryBuildTargets w faceOk data σ ri fp).1.ready = true →
        600 ≤ (tryBuildTargets w faceOk data σ ri fp).1.targetPoints.length)) := by
  constructor
  · intro hr
    simp [facePortraitInit] at hr
  · intro w faceOk data σ ri fp hinv hr
    rcases tryBuildTargets_cases w faceOk data σ ri fp with hcase | ⟨_, _, _, _, hmin⟩
    · rw [hcase] at hr ⊢
      exact hinv hr
    · exact hmin

/-- Witness for `readyPortrait_min_targets`: the preservation step applied
to a concrete successful build from the initial state. -/
theorem readyPortrait_min_targets_witness :
    (tryBuildTargets 1000 true (fun _ _ => (0, 0, 0)) (fun _ => 0) 0
        facePortraitInit).1.ready = true →
      600 ≤ (tryBuildTargets 1000 true (fun _ _ => (0, 0, 0)) (fun _ => 0) 0
        facePortraitInit).1.targetPoints.length :=
  readyPortrait_min_targets.2 1000 true (fun _ _ => (0, 0, 0)) (fun _ => 0) 0
    facePortraitInit (by simp [facePortraitInit])

/-! ## C9: particle count growth -/

lemma spawnLoop_length (w ht offW : ℚ) (tiles : List (Option ℕ)) (σ : ℕ → ℚ)
    (tps : List TargetPoint) :
    ∀ (count i ri : ℕ), (spawnLoop w ht offW tiles σ tps i count ri).1.length = count := by
  intro count
  induction count with
  | zero => intro i ri; simp [spawnLoop]
  | succ c ihc => intro i ri; simp [spawnLoop, ihc]

lemma updateParticles_length (sq : ℚ → ℚ) (now timeIn : ℚ) (tiles : List (Option ℕ))
    (σ : ℕ → ℚ) :
    ∀ (ps : List Particle) (i ri : ℕ),
      (updateParticles sq now timeIn tiles σ i ps ri).1.length = ps.length := by
  intro ps
  induction ps with
  | nil => intro i ri; simp [updateParticles]
  | cons p rest ihp => intro i ri; simp [updateParticles, ihp]

/-- `spawnBatch` leaves every field but `particles` alone, never removes a
particle, never exceeds the target count (given it was not already
exceeded), adds at most `maxNew` particles, and is a no-op when the
portrait is not ready. -/
lemma spawnBatch_spec (w ht : ℚ) (tiles : List (Option ℕ)) (σ : ℕ → ℚ)
    (maxNew ri : ℕ) (fp : FacePortrait)
    (hlen : fp.particles.length ≤ fp.targetPoints.length) :
    (spawnBatch w ht tiles σ maxNew ri fp).1.ready = fp.ready ∧
    (spawnBatch w ht tiles σ maxNew ri fp).1.builtOnce = fp.builtOnce ∧
    (spawnBatch w ht tiles σ maxNew ri fp).1.targetPoints = fp.targetPoints ∧
    fp.particles.length ≤ (spawnBatch w ht tiles σ maxNew ri fp).1.particles.length ∧
    (spawnBatch w ht tiles σ maxNew ri fp).1.particles.length ≤ fp.targetPoints.length ∧
    (spawnBatch w ht tiles σ maxNew ri fp).1.particles.length ≤
      fp.particles.length + maxNew ∧
    (fp.ready = false → (spawnBatch w ht tiles σ maxNew ri fp).1 = fp) := by
  obtain ⟨rd, tps, ps, bo, fi, ow, oh⟩ := fp
  cases rd
  · exact ⟨rfl, rfl, rfl, le_rfl, hlen, Nat.le_add_right _ _, fun _ => rfl⟩
  · by_cases hge : ps.length ≥ tps.length
    · have he : spawnBatch w ht tiles σ maxNew ri ⟨true, tps, ps, bo, fi, ow, oh⟩ =
          (⟨true, tps, ps, bo, fi, ow, oh⟩, ri) := by
        rw [spawnBatch]
        simp [hge]
      rw [he]
      exact ⟨rfl, rfl, rfl, le_rfl, hlen, Nat.le_add_right _ _, fun hf => nomatch hf⟩
    · have he : (spawnBatch w ht tiles σ maxNew ri ⟨true, tps, ps, bo, fi, ow, oh⟩).1 =
          ⟨true, tps,
            ps ++ (spawnLoop w ht ow tiles σ tps ps.length
              (min tps.length (ps.length + maxNew) - ps.length) ri).1,
            bo, fi, ow, oh⟩ := by
        rw [spawnBatch]
        simp [hge]
      rw [he]
      refine ⟨rfl, rfl, rfl, ?_, ?_, ?_, fun hf => nomatch hf⟩
      · simp
      · simp only [List.length_append, spawnLoop_length]
        omega
      · simp only [List.length_append, spawnLoop_length]
        omega

/-- The well-formedness invariant of the portrait state that `init` sets up
and every update preserves: a ready portrait has been built, a non-ready
one has no particles, and the particle count never exceeds the target
count. -/
def PortraitWF (fp : FacePortrait) : Prop :=
  (fp.ready = true → fp.builtOnce = true) ∧
  (fp.ready = false → fp.particles = []) ∧
  fp.particles.length ≤ fp.targetPoints.length

/-- C9: across one `facePortrait.update` tick from any well-formed state
(the invariant holds initially and is preserved), the particle count never
decreases, never exceeds the target-point count, and grows by at most 120
on viewports of width at least 520 and by at most 70 on narrower ones. -/
theorem particleCount_bounded (w ht : ℚ) (sq : ℚ → ℚ) (now timeIn : ℚ) (faceOk : Bool)
    (data : ℕ → ℕ → ℕ × ℕ × ℕ) (tiles : List (Option ℕ)) (σ : ℕ → ℚ) (ri : ℕ)
    (fp : FacePortrait) (hwf : PortraitWF fp) :
    PortraitWF (facePortraitUpdate w ht sq now timeIn faceOk data tiles σ ri fp).1 ∧
    fp.particles.length ≤
      (facePortraitUpdate w ht sq now timeIn faceOk data tiles σ ri fp).1.particles.length ∧
    (facePortraitUpdate w ht sq now timeIn faceOk data tiles σ ri fp).1.particles.length ≤
      (facePortraitUpdate w ht sq now timeIn faceOk data tiles σ ri fp).1.targetPoints.length ∧
    (520 ≤ w →
      (facePortraitUpdate w ht sq now timeIn faceOk data tiles σ ri fp).1.particles.length ≤
        fp.particles.length + 120) ∧
    (w < 520 →
      (facePortraitUpdate w ht sq now timeIn faceOk data tiles σ ri fp).1.particles.length ≤
        fp.particles.length + 70) := by
  obtain ⟨hw1, hw2, hw3⟩ := hwf
  simp only [facePortraitUpdate, PortraitWF]
  rcases tryBuildTargets_cases w faceOk data σ ri fp with hcase | ⟨hb0, hr1, hb1, hp1, ht1⟩
  · rw [hcase]
    simp only []
    obtain ⟨s1, s2, s3, s4, s5, s6, s7⟩ :=
      spawnBatch_spec w ht tiles σ (if w < 520 then 70 else 120) ri fp hw3
    have hL : (updateParticles sq now timeIn tiles σ 0
        (spawnBatch w ht tiles σ (if w < 520 then 70 else 120) ri fp).1.particles
        (spawnBatch w ht tiles σ (if w < 520 then 70 else 120) ri fp).2).1.length =
        (spawnBatch w ht tiles σ (if w < 520 then 70 else 120) ri fp).1.particles.length :=
      updateParticles_length _ _ _ _ _ _ _ _
    refine ⟨⟨?_, ?_, ?_⟩, ?_, ?_, ?_, ?_⟩
    · intro hrdy
      rw [s1] at hrdy
      rw [s2]
      exact hw1 hrdy
    · intro hrdy
      rw [s1] at hrdy
      rw [s7 hrdy, hw2 hrdy]
      rfl
    · rw [hL, s3]
      exact s5
    · rw [hL]
      exact s4
    · rw [hL, s3]
      exact s5
    · intro hwide
      rw [hL]
      have h120 : (if w < 520 then (70 : ℕ) else 120) = 120 := if_neg (not_lt.mpr hwide)
      rw [h120] at s6 ⊢
      exact s6
    · intro hnarrow
      rw [hL]
      have h70 : (if w < 520 then (70 : ℕ) else 120) = 70 := if_pos hnarrow
      rw [h70] at s6 ⊢
      exact s6
  · have hlen1 : (tryBuildTargets w faceOk data σ ri fp).1.particles.length ≤
        (tryBuildTargets w faceOk data σ ri fp).1.targetPoints.length := by
      rw [hp1]
      simp
    obtain ⟨s1, s2, s3, s4, s5, s6, s7⟩ :=
      spawnBatch_spec w ht tiles σ (if w < 520 then 70 else 120)
        (tryBuildTargets w faceOk data σ ri fp).2
        (tryBuildTargets w faceOk data σ ri fp).1 hlen1
    have hL : (updateParticles sq now timeIn tiles σ 0
        (spawnBatch w ht tiles σ (if w < 520 then 70 else 120)
          (tryBuildTargets w faceOk data σ ri fp).2
          (tryBuildTargets w faceOk data σ ri fp).1).1.particles
        (spawnBatch w ht tiles σ (if w < 520 then 70 else 120)
          (tryBuildTargets w faceOk data σ ri fp).2
          (tryBuildTargets w faceOk data σ ri fp).1).2).1.length =
        (spawnBatch w ht tiles σ (if w < 520 then 70 else 120)
          (tryBuildTargets w faceOk data σ ri fp).2
          (tryBuildTargets w faceOk data σ ri fp).1).1.particles.length :=
      updateParticles_length _ _ _ _ _ _ _ _
    have hfp0 : fp.particles = [] := by
      apply hw2
      cases hrd : fp.ready
      · rfl
      · exact absurd (hw1 hrd) (by simp [hb0])
    refine ⟨⟨?_, ?_, ?_⟩, ?_, ?_, ?_, ?_⟩
    · intro _
      rw [s2, hb1]
    · intro hrdy
      rw [s1, hr1] at hrdy
      exact absurd hrdy (by simp)
    · rw [hL, s3]
      exact s5
    · rw [hL, hfp0]
      simp
    · rw [hL, s3]
      exact s5
    · intro hwide
      rw [hL, hfp0]
      have h120 : (if w < 520 then (70 : ℕ) else 120) = 120 := if_neg (not_lt.mpr hwide)
      rw [h120] at s6 ⊢
      rw [hp1] at s6
      simpa using s6
    · intro hnarrow
      rw [hL, hfp0]
      have h70 : (if w < 520 then (70 : ℕ) else 120) = 70 := if_pos hnarrow
      rw [h70] at s6 ⊢
      rw [hp1] at s6
      simpa using s6

/-- Witness for `particleCount_bounded` from the initial portrait state on
a 1000-wide viewport. -/
theorem particleCount_bounded_witness :
    facePortraitInit.particles.length ≤
      (facePortraitUpdate 1000 800 (fun x => x) 0 0 false (fun _ _ => (0, 0, 0)) []
        (fun _ => 0) 0 facePortraitInit).1.particles.length ∧
    (facePortraitUpdate 1000 800 (fun x => x) 0 0 false (fun _ _ => (0, 0, 0)) []
        (fun _ => 0) 0 facePortraitInit).1.particles.length ≤
      facePortraitInit.particles.length + 120 := by
  have hmain := particleCount_bounded 1000 800 (fun x => x) 0 0 false (fun _ _ => (0, 0, 0))
    [] (fun _ => 0) 0 facePortraitInit
    (by simp [PortraitWF, facePortraitInit])
  exact ⟨hmain.2.1, hmain.2.2.2.1 (by norm_num)⟩

end Birthday
